import Mathlib

/-!
Shallow embedding of the TravelMAX trip-planner core (`main.py`) and proofs
about it.

Modelling conventions:
- The langgraph state (`PlannerState`, a Python `TypedDict` used as an open
  dict whose keys may be absent) is a record whose fields are all `Option`:
  `none` models an absent key, `some v` a present key.  `{**a, **b}` dict
  merging and `state.get`/`state[...]`-style access are translated with the
  matching `Option` operations.
- Wall-clock elapsed times are opaque inputs (the `Rat` parameters of each
  step); money amounts are `Rat`.
- The language-model call, the two stubbed provider calls and the wrapper's
  try/except are the only fault points; each is driven by an explicit oracle
  argument (`Except`/`Option String` carrying the Python exception text), so
  every Python `except` branch in the source is a reachable branch here.
- A Python `KeyError` raised by a `state['k']` access on a missing key is
  modelled by the corresponding `Option` being `none`; the first missing key
  (in the source's evaluation order) supplies the exception text `'k'`.
-/

/-- ASCII string lowering, modelling Python's `str.lower()` on the city
names appearing in the cost table. -/
def strLower (s : String) : String := ⟨s.data.map Char.toLower⟩

/-- Python dict key lookup `m.get(k)` on a dict represented as an ordered
association list. -/
def dict_lookup (k : String) : List (String × Rat) → Option Rat
  | [] => none
  | (k1, v) :: t => if k = k1 then some v else dict_lookup k t

/-- Overwrite the value stored under key `k` wherever it occurs, keeping
the dict order. -/
def dict_replace (k : String) (v : Rat) : List (String × Rat) → List (String × Rat)
  | [] => []
  | (k1, v1) :: t =>
    if k1 = k then (k, v) :: dict_replace k v t
    else (k1, v1) :: dict_replace k v t

/-- Python dict update `{**m, k: v}` on a dict represented as an ordered
association list: an existing key is overwritten in place, a new key is
appended at the end. -/
def dict_insert (k : String) (v : Rat) (m : List (String × Rat)) : List (String × Rat) :=
  if (dict_lookup k m).isSome then dict_replace k v m
  else m ++ [(k, v)]

/-- Python `sum(d.values())` on an association-list dict. -/
def metrics_sum (m : List (String × Rat)) : Rat := (m.map Prod.snd).sum

/-- Python `a if a is not None else b` shape of `{**base, **s}` per key:
the overriding dict's key wins when present. -/
def or_else {α : Type} (o d : Option α) : Option α :=
  match o with
  | some v => some v
  | none => d

/-- Python's `round(q, 2)`: scale by 100, round half-to-even, scale back.
(The repository's arithmetic is idealised over `Rat`; every value the code
actually produces is an exact multiple of 1/100, where float and rational
rounding agree.) -/
def round_half_even (q : Rat) : Int :=
  let f : Int := ⌊q⌋
  let r : Rat := q - (f : Rat)
  if r < 1/2 then f
  else if 1/2 < r then f + 1
  else if f % 2 = 0 then f else f + 1

/-- `round(q, 2)` from the source's cost estimator. -/
def py_round2 (q : Rat) : Rat := ((round_half_even (q * 100) : Int) : Rat) / 100

/-- `class TripType(Enum)` from `main.py`. -/
inductive TripType
  | leisure
  | business
  | adventure
  | cultural
deriving DecidableEq

/-- `class BudgetRange(Enum)` from `main.py`. -/
inductive BudgetRange
  | budget
  | moderate
  | luxury
deriving DecidableEq

/-- A conversation turn (`HumanMessage` / `AIMessage`). -/
inductive Message
  | human (content : String)
  | ai (content : String)
deriving DecidableEq

/-- A provider payload: a small string-keyed mapping (weather dict, one
event record). -/
abbrev StrMap := List (String × String)

/-- `class PlannerState(TypedDict)` from `main.py`.  Every field is
`Option`-al because the Python dict may lack any key. -/
structure PlannerState where
  messages : Option (List Message) := none
  city : Option String := none
  country : Option String := none
  interests : Option (List String) := none
  itinerary : Option String := none
  duration : Option Int := none
  trip_type : Option TripType := none
  budget_range : Option BudgetRange := none
  preferences : Option StrMap := none
  weather_info : Option StrMap := none
  local_events : Option (List StrMap) := none
  estimated_cost : Option Rat := none
  error_log : Option (List String) := none
  performance_metrics : Option (List (String × Rat)) := none
deriving DecidableEq

/-- The constant payload returned by the stubbed `get_weather_data` try
body. -/
def weather_stub : StrMap :=
  [("temperature", "22°C"), ("condition", "Partly Cloudy"),
   ("forecast", "Pleasant weather expected"),
   ("best_time_to_visit", "Morning and evening")]

/-- The constant event returned by the stubbed `get_local_events` try
body. -/
def local_event_stub (city : String) : StrMap :=
  [("name", "Local Festival in " ++ city), ("date", "2024-12-01"),
   ("type", "Cultural"), ("price", "Free")]

/-- `TravelPlannerService.get_weather_data`.  `fault = some e` injects an
exception with text `e` inside the try body (the stub itself is a constant;
a production API call in its place is the source of faults), which the
source's `except` clause turns into `{"error": str(e)}`. -/
def get_weather_data (fault : Option String) (city country : String) : StrMap :=
  match fault with
  | none => weather_stub
  | some e => [("error", e)]

/-- `TravelPlannerService.get_local_events`; on an injected fault the
source's `except` clause returns the empty list. -/
def get_local_events (fault : Option String) (city : String) (duration : Int) :
    List StrMap :=
  match fault with
  | none => [local_event_stub city]
  | some _ => []

/-- The `base_cost_per_day` dict lookup `base_cost_per_day.get(b, 150)`:
`none` stands for a `budget_range` value outside the `BudgetRange` enum,
for which `.get` yields the 150 default. -/
def base_cost_per_day (b : Option BudgetRange) : Rat :=
  match b with
  | some BudgetRange.budget => 50
  | some BudgetRange.moderate => 150
  | some BudgetRange.luxury => 400
  | none => 150

/-- The `city_multiplier` dict literal from
`TravelPlannerService.calculate_estimated_cost`. -/
def city_multiplier_table : List (String × Rat) :=
  [("paris", 3/2), ("london", 7/5), ("tokyo", 13/10),
   ("new york", 8/5), ("bangkok", 7/10), ("mumbai", 1/2)]

/-- The arithmetic core of `TravelPlannerService.calculate_estimated_cost`:
`round(daily_cost * duration * multiplier, 2)` with
`multiplier = city_multiplier.get(city.lower(), 1.0)` and
`daily_cost = base_cost_per_day.get(budget_range, 150)`. -/
def calculate_estimated_cost_value (city : String) (b : Option BudgetRange)
    (d : Int) : Rat :=
  py_round2 (base_cost_per_day b * (d : Rat) *
    ((dict_lookup (strLower city) city_multiplier_table).getD 1))

/-- `TravelPlannerService.calculate_estimated_cost` on a state: the bracket
accesses `state['city']`, `state['budget_range']`, `state['duration']`
raise `KeyError` on a missing key, which the function's own `except`
converts to `0.0`. -/
def calculate_estimated_cost (s : PlannerState) : Rat :=
  match s.city, s.budget_range, s.duration with
  | some c, some b, some d => calculate_estimated_cost_value c (some b) d
  | _, _, _ => 0

/-- Python truthiness of `state.get('city')`: `None` and `""` are falsy. -/
def truthyStr : Option String → Bool
  | none => false
  | some s => !(s == "")

/-- Python truthiness of `state.get('interests')`: `None` and `[]` are
falsy. -/
def truthyList : Option (List String) → Bool
  | none => false
  | some l => !(l.isEmpty)

/-- The `errors` list built by `validate_input`, in the source's append
order. -/
def validation_errors (s : PlannerState) : List String :=
  (if truthyStr s.city then [] else ["City is required"]) ++
  (if truthyList s.interests then [] else ["Interests are required"]) ++
  (if (s.duration.getD 0) < 1 then ["Duration must be at least 1 day"] else [])

/-- `validate_input`: records the violation list as the new `error_log`
(note: it does not append to an existing one), fills `country`/`trip_type`/
`budget_range` only when the key is absent, and merges `validation_time`
into `performance_metrics`.  Its try body cannot raise. -/
def validate_input (vt : Rat) (s : PlannerState) : PlannerState :=
  { s with
    country := some (s.country.getD "Unknown"),
    trip_type := some (s.trip_type.getD TripType.leisure),
    budget_range := some (s.budget_range.getD BudgetRange.moderate),
    error_log := some (validation_errors s),
    performance_metrics :=
      some (dict_insert "validation_time" vt (s.performance_metrics.getD [])) }

/-- The `KeyError` text for the first missing bracket access in
`gather_travel_data` (`state['city']`, `state['country']`,
`state['duration']`, in evaluation order). -/
def gather_missing_key (s : PlannerState) : String :=
  if s.city = none then "\x27city\x27"
  else if s.country = none then "\x27country\x27"
  else "\x27duration\x27"

/-- `gather_travel_data`: on its success path stores both provider results
and the `data_gathering_time` metric; a `KeyError` from a missing key is
caught by its `except`, which only appends to `error_log`. -/
def gather_travel_data (gt : Rat) (wfault efault : Option String)
    (s : PlannerState) : PlannerState :=
  match s.city, s.country, s.duration with
  | some city, some country, some dur =>
    { s with
      weather_info := some (get_weather_data wfault city country),
      local_events := some (get_local_events efault city dur),
      performance_metrics :=
        some (dict_insert "data_gathering_time" gt (s.performance_metrics.getD [])) }
  | _, _, _ =>
    { s with
      error_log := some ((s.error_log.getD []) ++
        ["Data gathering failed: " ++ gather_missing_key s]) }

/-- The `KeyError` text for the first missing bracket access in
`create_enhanced_itinerary`'s context dict (`state['city']`,
`state['country']`, `state['interests']`, `state['duration']`, in
evaluation order), if any. -/
def create_missing_key (s : PlannerState) : Option String :=
  if s.city = none then some "\x27city\x27"
  else if s.country = none then some "\x27country\x27"
  else if s.interests = none then some "\x27interests\x27"
  else if s.duration = none then some "\x27duration\x27"
  else none

/-- The failure return of `create_enhanced_itinerary`'s `except` clause:
the error message becomes the itinerary and is appended to `error_log`. -/
def create_error_state (s : PlannerState) (msg : String) : PlannerState :=
  { s with
    itinerary := some msg,
    error_log := some ((s.error_log.getD []) ++ [msg]) }

/-- `create_enhanced_itinerary`: computes the estimated cost, builds the
prompt context (whose bracket accesses may raise `KeyError`), invokes the
language model (`llm`: `Except.error e` models a raised exception with text
`e`; empty content raises `ValueError("Empty response from LLM")`), and on
success folds the response, cost, conversation turn and timing metrics into
the state. -/
def create_enhanced_itinerary (ct : Rat) (llm : Except String String)
    (s : PlannerState) : PlannerState :=
  match create_missing_key s with
  | some k => create_error_state s ("Error generating itinerary: " ++ k)
  | none =>
    match llm with
    | Except.error e => create_error_state s ("Error generating itinerary: " ++ e)
    | Except.ok content =>
      if content = "" then
        create_error_state s ("Error generating itinerary: Empty response from LLM")
      else
        { s with
          itinerary := some content,
          estimated_cost := some (calculate_estimated_cost s),
          messages := some ((s.messages.getD []) ++ [Message.ai content]),
          performance_metrics :=
            some (dict_insert "total_processing_time"
              (metrics_sum (s.performance_metrics.getD []) + ct)
              (dict_insert "itinerary_generation_time" ct
                (s.performance_metrics.getD []))) }

/-- The `default_state` dict literal from `run_travel_planner`. -/
def default_state : PlannerState :=
  { messages := some [], city := some "", country := some "",
    interests := some [], itinerary := some "", duration := some 1,
    trip_type := some TripType.leisure,
    budget_range := some BudgetRange.moderate, preferences := some [],
    weather_info := some [], local_events := some [],
    estimated_cost := some 0, error_log := some [],
    performance_metrics := some [] }

/-- Python `{**base, **s}` on two planner states: per key, `s`'s value when
the key is present in `s`, else `base`'s. -/
def py_dict_merge (base s : PlannerState) : PlannerState :=
  { messages := or_else s.messages base.messages,
    city := or_else s.city base.city,
    country := or_else s.country base.country,
    interests := or_else s.interests base.interests,
    itinerary := or_else s.itinerary base.itinerary,
    duration := or_else s.duration base.duration,
    trip_type := or_else s.trip_type base.trip_type,
    budget_range := or_else s.budget_range base.budget_range,
    preferences := or_else s.preferences base.preferences,
    weather_info := or_else s.weather_info base.weather_info,
    local_events := or_else s.local_events base.local_events,
    estimated_cost := or_else s.estimated_cost base.estimated_cost,
    error_log := or_else s.error_log base.error_log,
    performance_metrics := or_else s.performance_metrics base.performance_metrics }

/-- `final_state = {**default_state, **state}` from `run_travel_planner`. -/
def merge_over_defaults (s : PlannerState) : PlannerState :=
  py_dict_merge default_state s

/-- The environment a run observes: one injection point per fault source in
the source code, plus the opaque elapsed times of the three steps.
`sys_fault = some e` models an exception with text `e` escaping the graph
execution inside `run_travel_planner`'s try body. -/
structure Oracles where
  sys_fault : Option String
  weather_fault : Option String
  events_fault : Option String
  llm : Except String String
  vtime : Rat
  gtime : Rat
  ctime : Rat

/-- The compiled langgraph pipeline (`build_travel_planner_graph` plus the
`astream`/`update` loop of the wrapper): the fixed edge order
validate → gather → generate, each node returning the full updated state
which last-write-wins replaces the running one. -/
def pipeline (o : Oracles) (s : PlannerState) : PlannerState :=
  create_enhanced_itinerary o.ctime o.llm
    (gather_travel_data o.gtime o.weather_fault o.events_fault
      (validate_input o.vtime s))

/-- `run_travel_planner`: merge the caller state over `default_state`, run
the graph, and return the final state; any exception in the try body is
caught and turned into `{**state, "itinerary": msg, "error_log": [msg]}`
over the caller's original (unmerged) state. -/
def run_travel_planner (o : Oracles) (s : PlannerState) : PlannerState :=
  match o.sys_fault with
  | some e =>
    { s with
      itinerary := some ("System error: " ++ e),
      error_log := some ["System error: " ++ e] }
  | none => pipeline o (merge_over_defaults s)

/-! ### Helper lemmas -/

theorem dict_lookup_append (k : String) (m l : List (String × Rat)) :
    dict_lookup k (m ++ l) = (dict_lookup k m).or (dict_lookup k l) := by
  induction m with
  | nil => simp [dict_lookup]
  | cons p t ih =>
    obtain ⟨k1, v1⟩ := p
    by_cases hk : k = k1 <;> simp [dict_lookup, hk, ih]

theorem dict_lookup_replace (k k2 : String) (v : Rat) (m : List (String × Rat)) :
    dict_lookup k2 (dict_replace k v m) =
      if k2 = k then (if (dict_lookup k m).isSome then some v else none)
      else dict_lookup k2 m := by
  induction m with
  | nil => simp [dict_lookup, dict_replace]
  | cons p t ih =>
    obtain ⟨k1, v1⟩ := p
    by_cases hp : k1 = k
    · subst hp
      by_cases h2 : k2 = k1 <;> simp [dict_lookup, dict_replace, h2, ih]
    · have hk : k ≠ k1 := fun h => hp h.symm
      by_cases h2 : k2 = k1
      · subst h2
        simp [dict_lookup, dict_replace, hp, hk, ih]
      · simp [dict_lookup, dict_replace, hp, hk, h2, ih]

theorem dict_lookup_insert_self (k : String) (v : Rat) (m : List (String × Rat)) :
    dict_lookup k (dict_insert k v m) = some v := by
  unfold dict_insert
  by_cases h : (dict_lookup k m).isSome
  · simp [h, dict_lookup_replace]
  · rw [if_neg h, dict_lookup_append, Option.not_isSome_iff_eq_none.mp h]
    simp [dict_lookup]

theorem dict_lookup_insert_ne {k k2 : String} (hne : k2 ≠ k) (v : Rat)
    (m : List (String × Rat)) :
    dict_lookup k2 (dict_insert k v m) = dict_lookup k2 m := by
  unfold dict_insert
  by_cases h : (dict_lookup k m).isSome
  · simp [h, dict_lookup_replace, hne]
  · rw [if_neg h, dict_lookup_append]
    simp [dict_lookup, hne]

theorem dict_lookup_insert_isSome {k2 : String} {m : List (String × Rat)}
    (h : (dict_lookup k2 m).isSome = true) (k : String) (v : Rat) :
    (dict_lookup k2 (dict_insert k v m)).isSome = true := by
  by_cases hk : k2 = k
  · subst hk
    rw [dict_lookup_insert_self]
    rfl
  · rw [dict_lookup_insert_ne hk]
    exact h

theorem or_else_some {α : Type} (o : Option α) (d : α) :
    or_else o (some d) = some (o.getD d) := by
  cases o <;> rfl

theorem round_half_even_intCast (n : Int) : round_half_even ((n : Int) : Rat) = n := by
  unfold round_half_even
  rw [Int.floor_intCast]
  norm_num

theorem py_round2_intCast (n : Int) : py_round2 ((n : Int) : Rat) = ((n : Int) : Rat) := by
  unfold py_round2
  rw [show ((n : Rat) * 100) = (((n * 100 : Int)) : Rat) by push_cast; ring,
    round_half_even_intCast]
  push_cast
  field_simp

theorem error_prefix_ne_empty (k : String) :
    ("Error generating itinerary: " ++ k) ≠ "" := by
  intro h
  have h2 := congrArg String.length h
  rw [String.length_append] at h2
  have e1 : 0 < ("Error generating itinerary: ").length := by decide
  have e2 : ("" : String).length = 0 := rfl
  omega

theorem mem_error_log_gather (gt : Rat) (wf ef : Option String) (s : PlannerState)
    {x : String} (hx : x ∈ s.error_log.getD []) :
    x ∈ (gather_travel_data gt wf ef s).error_log.getD [] := by
  unfold gather_travel_data
  split
  · exact hx
  · simp [hx]

theorem mem_error_log_create (ct : Rat) (llm : Except String String) (s : PlannerState)
    {x : String} (hx : x ∈ s.error_log.getD []) :
    x ∈ (create_enhanced_itinerary ct llm s).error_log.getD [] := by
  unfold create_enhanced_itinerary create_error_state
  split
  · simp [hx]
  · split
    · simp [hx]
    · split
      · simp [hx]
      · exact hx

theorem gather_country (gt : Rat) (wf ef : Option String) (s : PlannerState) :
    (gather_travel_data gt wf ef s).country = s.country := by
  unfold gather_travel_data
  split <;> rfl

theorem create_country (ct : Rat) (llm : Except String String) (s : PlannerState) :
    (create_enhanced_itinerary ct llm s).country = s.country := by
  unfold create_enhanced_itinerary create_error_state
  split
  · rfl
  · split
    · rfl
    · split <;> rfl

theorem create_itinerary_ne_empty (ct : Rat) (llm : Except String String)
    (s : PlannerState) :
    ∃ m, (create_enhanced_itinerary ct llm s).itinerary = some m ∧ m ≠ "" := by
  unfold create_enhanced_itinerary create_error_state
  split
  · exact ⟨_, rfl, error_prefix_ne_empty _⟩
  · split
    · exact ⟨_, rfl, error_prefix_ne_empty _⟩
    · split
      · exact ⟨_, rfl, error_prefix_ne_empty _⟩
      · next content hne => exact ⟨content, rfl, hne⟩

/-- Every key of the `PlannerState` TypedDict is present in the dict. -/
def all_keys_present (s : PlannerState) : Prop :=
  s.messages.isSome = true ∧ s.city.isSome = true ∧ s.country.isSome = true ∧
  s.interests.isSome = true ∧ s.itinerary.isSome = true ∧
  s.duration.isSome = true ∧ s.trip_type.isSome = true ∧
  s.budget_range.isSome = true ∧ s.preferences.isSome = true ∧
  s.weather_info.isSome = true ∧ s.local_events.isSome = true ∧
  s.estimated_cost.isSome = true ∧ s.error_log.isSome = true ∧
  s.performance_metrics.isSome = true

theorem all_keys_present_merge (s : PlannerState) :
    all_keys_present (merge_over_defaults s) := by
  simp [all_keys_present, merge_over_defaults, py_dict_merge, default_state,
    or_else_some]

theorem all_keys_present_validate (vt : Rat) {s : PlannerState}
    (h : all_keys_present s) : all_keys_present (validate_input vt s) := by
  obtain ⟨h1, h2, h3, h4, h5, h6, h7, h8, h9, h10, h11, h12, h13, h14⟩ := h
  exact ⟨h1, h2, rfl, h4, h5, h6, rfl, rfl, h9, h10, h11, h12, rfl, rfl⟩

theorem all_keys_present_gather (gt : Rat) (wf ef : Option String)
    {s : PlannerState} (h : all_keys_present s) :
    all_keys_present (gather_travel_data gt wf ef s) := by
  obtain ⟨h1, h2, h3, h4, h5, h6, h7, h8, h9, h10, h11, h12, h13, h14⟩ := h
  unfold gather_travel_data
  split
  · exact ⟨h1, h2, h3, h4, h5, h6, h7, h8, h9, rfl, rfl, h12, h13, rfl⟩
  · exact ⟨h1, h2, h3, h4, h5, h6, h7, h8, h9, h10, h11, h12, rfl, h14⟩

theorem create_missing_key_eq_none {s : PlannerState} (hc : s.city ≠ none)
    (hn : s.country ≠ none) (hi : s.interests ≠ none) (hd : s.duration ≠ none) :
    create_missing_key s = none := by
  simp [create_missing_key, hc, hn, hi, hd]

theorem all_keys_present_create (ct : Rat) (llm : Except String String)
    {s : PlannerState} (h : all_keys_present s) :
    all_keys_present (create_enhanced_itinerary ct llm s) := by
  obtain ⟨h1, h2, h3, h4, h5, h6, h7, h8, h9, h10, h11, h12, h13, h14⟩ := h
  unfold create_enhanced_itinerary
  split
  · exact ⟨h1, h2, h3, h4, rfl, h6, h7, h8, h9, h10, h11, h12, rfl, h14⟩
  · split
    · exact ⟨h1, h2, h3, h4, rfl, h6, h7, h8, h9, h10, h11, h12, rfl, h14⟩
    · split
      · exact ⟨h1, h2, h3, h4, rfl, h6, h7, h8, h9, h10, h11, h12, rfl, h14⟩
      · exact ⟨rfl, h2, h3, h4, rfl, h6, h7, h8, h9, h10, h11, rfl, h13, rfl⟩

/-! ### Concrete fixtures used by witnesses and counterexamples -/

/-- A fault-free environment: generation succeeds with content `"PLAN"`. -/
def oracles_plain : Oracles :=
  { sys_fault := none, weather_fault := none, events_fault := none,
    llm := Except.ok "PLAN", vtime := 0, gtime := 0, ctime := 0 }

/-- An environment in which the graph execution raises `boom` inside the
wrapper's try body. -/
def oracles_fault : Oracles :=
  { sys_fault := some "boom", weather_fault := none, events_fault := none,
    llm := Except.ok "PLAN", vtime := 0, gtime := 0, ctime := 0 }

/-- The caller passes an empty dict. -/
def state_empty : PlannerState := {}

/-! ### Claims -/

/-- Claim C1: for every initial state, the invocation wrapper
`run_travel_planner` never lets an exception escape to the caller: any
uncaught fault `e` from the pipeline is caught at the wrapper boundary
(`run_travel_planner` is a total function of the fault oracle), and the
wrapper returns a state whose itinerary is set to the system-error message
and whose `error_log` contains the error text. -/
theorem C1_wrapper_never_raises (o : Oracles) (s : PlannerState) (e : String)
    (h : o.sys_fault = some e) :
    (run_travel_planner o s).itinerary = some ("System error: " ++ e) ∧
    (run_travel_planner o s).error_log = some ["System error: " ++ e] ∧
    ("System error: " ++ e) ∈ ((run_travel_planner o s).error_log.getD []) := by
  unfold run_travel_planner
  rw [h]
  exact ⟨rfl, rfl, by simp⟩

theorem C1_wrapper_never_raises_witness :
    (run_travel_planner oracles_fault state_empty).itinerary
      = some ("System error: " ++ "boom") ∧
    (run_travel_planner oracles_fault state_empty).error_log
      = some ["System error: " ++ "boom"] ∧
    ("System error: " ++ "boom")
      ∈ ((run_travel_planner oracles_fault state_empty).error_log.getD []) :=
  C1_wrapper_never_raises oracles_fault state_empty "boom" rfl

/-- Claim C2: for every state, if the generation service raises (`llm` is
an `error`) or returns empty content, `create_enhanced_itinerary` returns a
state whose itinerary equals a descriptive error string, whose `error_log`
grows by exactly one entry (hence by at least 1), and the step is a total
function (the fault is not propagated). -/
theorem C2_generation_failure_handled (ct : Rat) (llm : Except String String)
    (s : PlannerState) (h : (∃ e, llm = Except.error e) ∨ llm = Except.ok "") :
    ∃ m, (create_enhanced_itinerary ct llm s).itinerary
        = some ("Error generating itinerary: " ++ m) ∧
      (create_enhanced_itinerary ct llm s).error_log
        = some ((s.error_log.getD []) ++ ["Error generating itinerary: " ++ m]) ∧
      ((create_enhanced_itinerary ct llm s).error_log.getD []).length
        = (s.error_log.getD []).length + 1 := by
  unfold create_enhanced_itinerary create_error_state
  cases hk : create_missing_key s with
  | some k => exact ⟨k, by simp [hk], by simp [hk], by simp [hk]⟩
  | none =>
    rcases h with ⟨e, he⟩ | he
    · subst he
      exact ⟨e, by simp [hk], by simp [hk], by simp [hk]⟩
    · subst he
      exact ⟨"Empty response from LLM", by simp [hk], by simp [hk], by simp [hk]⟩

theorem C2_generation_failure_handled_witness :
    ((∃ e, (Except.error "LLM down" : Except String String) = Except.error e) ∨
      (Except.error "LLM down" : Except String String) = Except.ok "") ∧
    (∃ m, (create_enhanced_itinerary 0 (Except.error "LLM down") state_empty).itinerary
        = some ("Error generating itinerary: " ++ m) ∧
      (create_enhanced_itinerary 0 (Except.error "LLM down") state_empty).error_log
        = some ((state_empty.error_log.getD []) ++ ["Error generating itinerary: " ++ m]) ∧
      ((create_enhanced_itinerary 0 (Except.error "LLM down") state_empty).error_log.getD []).length
        = (state_empty.error_log.getD []).length + 1) :=
  ⟨Or.inl ⟨"LLM down", rfl⟩,
    C2_generation_failure_handled 0 (Except.error "LLM down") state_empty
      (Or.inl ⟨"LLM down", rfl⟩)⟩

/-- Claim C4: for every initial state, after the pipeline completes the
wrapper returns the merged final state as-is (unconditionally, hence in
particular when its itinerary is non-empty), and that state's itinerary is
never empty: every branch of the generation step writes a non-empty
itinerary, so the claim's "otherwise synthesizes" case never arises. -/
theorem C4_wrapper_returns_final_state (o : Oracles) (s : PlannerState)
    (h : o.sys_fault = none) :
    run_travel_planner o s = pipeline o (merge_over_defaults s) ∧
    ∃ m, (run_travel_planner o s).itinerary = some m ∧ m ≠ "" := by
  have hr : run_travel_planner o s = pipeline o (merge_over_defaults s) := by
    unfold run_travel_planner
    rw [h]
  refine ⟨hr, ?_⟩
  rw [hr]
  unfold pipeline
  exact create_itinerary_ne_empty _ _ _

theorem C4_wrapper_returns_final_state_witness :
    run_travel_planner oracles_plain state_empty
      = pipeline oracles_plain (merge_over_defaults state_empty) ∧
    ∃ m, (run_travel_planner oracles_plain state_empty).itinerary = some m ∧ m ≠ "" :=
  C4_wrapper_returns_final_state oracles_plain state_empty rfl

/-- Per-day cost table as worded by the specification: 50 for budget, 150
for moderate, 400 for luxury, 150 for an unknown tier.  (Spec-side
definition, to be compared with the source-side `base_cost_per_day`.) -/
def cost_spec_per_day : Option BudgetRange → Rat
  | some BudgetRange.budget => 50
  | some BudgetRange.moderate => 150
  | some BudgetRange.luxury => 400
  | none => 150

/-- City multiplier as worded by the specification: paris=1.5, london=1.4,
tokyo=1.3, new york=1.6, bangkok=0.7, mumbai=0.5 keyed by lower-cased name,
1.0 for an unknown city.  (Spec-side definition.) -/
def cost_spec_multiplier (city : String) : Rat :=
  if strLower city = "paris" then 15/10
  else if strLower city = "london" then 14/10
  else if strLower city = "tokyo" then 13/10
  else if strLower city = "new york" then 16/10
  else if strLower city = "bangkok" then 7/10
  else if strLower city = "mumbai" then 5/10
  else 1

/-- `round(perDay * duration * multiplier, 2)` as worded by the
specification.  (Spec-side definition.) -/
def cost_spec (b : Option BudgetRange) (d : Int) (city : String) : Rat :=
  py_round2 (cost_spec_per_day b * (d : Rat) * cost_spec_multiplier city)

theorem city_multiplier_lookup_eq_spec (c : String) :
    (dict_lookup (strLower c) city_multiplier_table).getD 1 = cost_spec_multiplier c := by
  unfold cost_spec_multiplier city_multiplier_table
  by_cases h1 : strLower c = "paris"
  · simp [dict_lookup, h1]
    norm_num
  by_cases h2 : strLower c = "london"
  · simp [dict_lookup, h1, h2]
    norm_num
  by_cases h3 : strLower c = "tokyo"
  · simp [dict_lookup, h1, h2, h3]
  by_cases h4 : strLower c = "new york"
  · simp [dict_lookup, h1, h2, h3, h4]
    norm_num
  by_cases h5 : strLower c = "bangkok"
  · simp [dict_lookup, h1, h2, h3, h4, h5]
  by_cases h6 : strLower c = "mumbai"
  · simp [dict_lookup, h1, h2, h3, h4, h5, h6]
    norm_num
  · simp [dict_lookup, h1, h2, h3, h4, h5, h6]

/-- Claim C3: for every budget tier (`none` standing for a value outside
the enum), duration and city, `calculate_estimated_cost_value` returns
`round(perDay * duration * multiplier, 2)` with the claimed per-day and
multiplier tables (it is a total function, hence never raises, and
deterministic); in particular cost(moderate, 3, "Paris") = 675.0 and
cost(budget, 1, "unknown-city") = 50.0. -/
theorem C3_cost_formula :
    (∀ (b : Option BudgetRange) (d : Int) (c : String),
      calculate_estimated_cost_value c b d = cost_spec b d c) ∧
    calculate_estimated_cost_value "Paris" (some BudgetRange.moderate) 3 = 675 ∧
    calculate_estimated_cost_value "unknown-city" (some BudgetRange.budget) 1 = 50 := by
  have hb : ∀ b, base_cost_per_day b = cost_spec_per_day b := by
    intro b
    rcases b with _ | t
    · rfl
    · cases t <;> rfl
  have hmain : ∀ (b : Option BudgetRange) (d : Int) (c : String),
      calculate_estimated_cost_value c b d = cost_spec b d c := by
    intro b d c
    unfold calculate_estimated_cost_value cost_spec
    rw [hb, city_multiplier_lookup_eq_spec]
  refine ⟨hmain, ?_, ?_⟩
  · unfold calculate_estimated_cost_value
    rw [show strLower "Paris" = "paris" from by decide]
    rw [show base_cost_per_day (some BudgetRange.moderate) = 150 from rfl]
    rw [show (dict_lookup "paris" city_multiplier_table).getD 1 = 3/2 from rfl]
    rw [show (150 : Rat) * ((3 : Int) : Rat) * (3/2) = ((675 : Int) : Rat) by
      push_cast; norm_num]
    rw [py_round2_intCast]
    norm_num
  · unfold calculate_estimated_cost_value
    rw [show strLower "unknown-city" = "unknown-city" from by decide]
    rw [show base_cost_per_day (some BudgetRange.budget) = 50 from rfl]
    rw [show (dict_lookup "unknown-city" city_multiplier_table).getD 1 = 1 from by
      simp [dict_lookup, city_multiplier_table]]
    rw [show (50 : Rat) * ((1 : Int) : Rat) * 1 = ((50 : Int) : Rat) by
      push_cast; norm_num]
    rw [py_round2_intCast]
    norm_num

/-- A caller state that already carries an `error_log` entry when the run
starts. -/
def state_prior_log : PlannerState :=
  { city := some "Paris", interests := some ["art"], duration := some 3,
    error_log := some ["prior failure"] }

/-- Claim C5 counterexample: `validate_input` does not preserve incoming
`error_log` entries — it overwrites `error_log` with the freshly computed
violation list, so the entry `"prior failure"` present in the incoming
state is gone from the returned state. -/
theorem C5_error_log_growth_cex :
    "prior failure" ∈ (state_prior_log.error_log.getD []) ∧
    "prior failure" ∉ ((validate_input 0 state_prior_log).error_log.getD []) := by
  constructor
  · decide
  · decide

/-- Claim C5 (amended): within one run `performance_metrics` keys only
grow — every key present in the incoming dict is still present after each
of the three steps; `error_log` entries are preserved by
`gather_travel_data` and `create_enhanced_itinerary`; but `validate_input`
replaces `error_log` with the freshly computed violation list, and the
wrapper's error path replaces `error_log` with the single system-error
entry, so incoming `error_log` entries are not preserved at those two
places. -/
theorem C5_growth_amended (vt gt ct : Rat) (wf ef : Option String)
    (llm : Except String String) (s s2 : PlannerState) (k x e : String) :
    ((dict_lookup k (s.performance_metrics.getD [])).isSome = true →
      (dict_lookup k ((validate_input vt s).performance_metrics.getD [])).isSome = true) ∧
    ((dict_lookup k (s.performance_metrics.getD [])).isSome = true →
      (dict_lookup k ((gather_travel_data gt wf ef s).performance_metrics.getD [])).isSome = true) ∧
    ((dict_lookup k (s.performance_metrics.getD [])).isSome = true →
      (dict_lookup k ((create_enhanced_itinerary ct llm s).performance_metrics.getD [])).isSome = true) ∧
    (x ∈ s.error_log.getD [] → x ∈ (gather_travel_data gt wf ef s).error_log.getD []) ∧
    (x ∈ s.error_log.getD [] → x ∈ (create_enhanced_itinerary ct llm s).error_log.getD []) ∧
    (validate_input vt s).error_log = some (validation_errors s) ∧
    (run_travel_planner
      { sys_fault := some e, weather_fault := wf, events_fault := ef,
        llm := llm, vtime := vt, gtime := gt, ctime := ct } s2).error_log
      = some ["System error: " ++ e] := by
  refine ⟨?_, ?_, ?_, fun hx => mem_error_log_gather gt wf ef s hx,
    fun hx => mem_error_log_create ct llm s hx, rfl, rfl⟩
  · intro h
    exact dict_lookup_insert_isSome h _ _
  · intro h
    unfold gather_travel_data
    split
    · exact dict_lookup_insert_isSome h _ _
    · exact h
  · intro h
    unfold create_enhanced_itinerary create_error_state
    split
    · exact h
    · split
      · exact h
      · split
        · exact h
        · exact dict_lookup_insert_isSome (dict_lookup_insert_isSome h _ _) _ _

/-- A caller state carrying both a metrics entry and an `error_log` entry,
used to instantiate the growth properties. -/
def state_c5 : PlannerState :=
  { city := some "Paris", interests := some ["art"], duration := some 3,
    error_log := some ["x0"], performance_metrics := some [("m0", 1)] }

theorem C5_growth_amended_witness :
    (dict_lookup "m0" (state_c5.performance_metrics.getD [])).isSome = true ∧
    (dict_lookup "m0" ((validate_input 0 state_c5).performance_metrics.getD [])).isSome = true ∧
    (dict_lookup "m0" ((gather_travel_data 0 none none state_c5).performance_metrics.getD [])).isSome = true ∧
    (dict_lookup "m0" ((create_enhanced_itinerary 0 (Except.ok "PLAN") state_c5).performance_metrics.getD [])).isSome = true ∧
    "x0" ∈ state_c5.error_log.getD [] ∧
    "x0" ∈ (gather_travel_data 0 none none state_c5).error_log.getD [] ∧
    "x0" ∈ (create_enhanced_itinerary 0 (Except.ok "PLAN") state_c5).error_log.getD [] ∧
    (validate_input 0 state_c5).error_log = some (validation_errors state_c5) ∧
    (run_travel_planner
      { sys_fault := some "boom", weather_fault := none, events_fault := none,
        llm := Except.ok "PLAN", vtime := 0, gtime := 0, ctime := 0 } state_empty).error_log
      = some ["System error: " ++ "boom"] := by
  have h := C5_growth_amended 0 0 0 none none (Except.ok "PLAN") state_c5 state_empty
    "m0" "x0" "boom"
  exact ⟨by decide, h.1 (by decide), h.2.1 (by decide), h.2.2.1 (by decide),
    by decide, h.2.2.2.1 (by decide), h.2.2.2.2.1 (by decide),
    h.2.2.2.2.2.1, h.2.2.2.2.2.2⟩

/-- Claim C6: for every input state missing city (absent or empty) or
missing interests, the final state's `error_log` contains the entry
describing the missing field, and the pipeline still completes (it is a
total function of the oracles on the fault-free path). -/
theorem C6_missing_fields_reported (o : Oracles) (s : PlannerState)
    (h : o.sys_fault = none) :
    ((s.city = none ∨ s.city = some "") →
      "City is required" ∈ (run_travel_planner o s).error_log.getD []) ∧
    ((s.interests = none ∨ s.interests = some []) →
      "Interests are required" ∈ (run_travel_planner o s).error_log.getD []) := by
  have hr : run_travel_planner o s = pipeline o (merge_over_defaults s) := by
    unfold run_travel_planner
    rw [h]
  rw [hr]
  unfold pipeline
  constructor
  · intro hc
    apply mem_error_log_create
    apply mem_error_log_gather
    have hv : (validate_input o.vtime (merge_over_defaults s)).error_log
        = some (validation_errors (merge_over_defaults s)) := rfl
    rw [hv, Option.getD_some]
    unfold validation_errors
    have hcity : (merge_over_defaults s).city = some "" := by
      unfold merge_over_defaults py_dict_merge default_state
      rcases hc with hc | hc <;> rw [hc] <;> rfl
    rw [hcity]
    simp [truthyStr]
  · intro hi
    apply mem_error_log_create
    apply mem_error_log_gather
    have hv : (validate_input o.vtime (merge_over_defaults s)).error_log
        = some (validation_errors (merge_over_defaults s)) := rfl
    rw [hv, Option.getD_some]
    unfold validation_errors
    have hint : (merge_over_defaults s).interests = some [] := by
      unfold merge_over_defaults py_dict_merge default_state
      rcases hi with hi | hi <;> rw [hi] <;> rfl
    rw [hint]
    simp [truthyList]

theorem C6_missing_fields_reported_witness :
    "City is required" ∈ (run_travel_planner oracles_plain state_empty).error_log.getD [] ∧
    "Interests are required" ∈ (run_travel_planner oracles_plain state_empty).error_log.getD [] :=
  ⟨(C6_missing_fields_reported oracles_plain state_empty rfl).1 (Or.inl rfl),
   (C6_missing_fields_reported oracles_plain state_empty rfl).2 (Or.inl rfl)⟩

/-- Claim C7: in the data-gathering step each provider call is best-effort:
when exactly one of the two lookups fails, the step does not abort (the
returned state's `error_log` and `itinerary` are untouched), the failing
lookup degrades to an error-flagged (weather) or empty (events) result for
that one field only, and the other field still carries the successful
lookup's result. -/
theorem C7_provider_best_effort (gt : Rat) (s : PlannerState)
    (city country : String) (dur : Int) (e : String)
    (hc : s.city = some city) (hn : s.country = some country)
    (hd : s.duration = some dur) :
    ((gather_travel_data gt (some e) none s).weather_info = some [("error", e)] ∧
     (gather_travel_data gt (some e) none s).local_events = some [local_event_stub city] ∧
     (gather_travel_data gt (some e) none s).error_log = s.error_log ∧
     (gather_travel_data gt (some e) none s).itinerary = s.itinerary) ∧
    ((gather_travel_data gt none (some e) s).weather_info = some weather_stub ∧
     (gather_travel_data gt none (some e) s).local_events = some [] ∧
     (gather_travel_data gt none (some e) s).error_log = s.error_log ∧
     (gather_travel_data gt none (some e) s).itinerary = s.itinerary) := by
  refine ⟨⟨?_, ?_, ?_, ?_⟩, ⟨?_, ?_, ?_, ?_⟩⟩ <;>
    simp [gather_travel_data, hc, hn, hd, get_weather_data, get_local_events]

/-- A caller state with city, country and duration all present. -/
def state_c7 : PlannerState :=
  { city := some "Tokyo", country := some "Japan", duration := some 3 }

theorem C7_provider_best_effort_witness :
    ((gather_travel_data 0 (some "weather down") none state_c7).weather_info
        = some [("error", "weather down")] ∧
     (gather_travel_data 0 (some "weather down") none state_c7).local_events
        = some [local_event_stub "Tokyo"] ∧
     (gather_travel_data 0 (some "weather down") none state_c7).error_log
        = state_c7.error_log ∧
     (gather_travel_data 0 (some "weather down") none state_c7).itinerary
        = state_c7.itinerary) ∧
    ((gather_travel_data 0 none (some "weather down") state_c7).weather_info
        = some weather_stub ∧
     (gather_travel_data 0 none (some "weather down") state_c7).local_events
        = some [] ∧
     (gather_travel_data 0 none (some "weather down") state_c7).error_log
        = state_c7.error_log ∧
     (gather_travel_data 0 none (some "weather down") state_c7).itinerary
        = state_c7.itinerary) :=
  C7_provider_best_effort 0 state_c7 "Tokyo" "Japan" 3 "weather down" rfl rfl rfl

/-- A caller state with no `country` key. -/
def state_no_country : PlannerState :=
  { city := some "Rome", interests := some ["art"], duration := some 2 }

/-- Claim C8 counterexample: on a caller state without a country, the entry
point returns `country = ""` (the wrapper's own default), not `"Unknown"`:
the wrapper merge fills the key with `""` before validation, so
`validate_input`'s `'country' not in state` check never fires on this
path. -/
theorem C8_country_unknown_cex :
    state_no_country.country = none ∧
    (run_travel_planner oracles_plain state_no_country).country = some "" ∧
    (run_travel_planner oracles_plain state_no_country).country ≠ some "Unknown" := by
  have h : (run_travel_planner oracles_plain state_no_country).country = some "" := rfl
  exact ⟨rfl, h, by rw [h]; decide⟩

/-- Claim C8 (amended): for every initial state in which the caller did not
supply a country, the final state returned by the entry point has
`country = ""` — the wrapper's defaults merge fills an absent country with
the empty string before validation runs; `validate_input`'s `"Unknown"`
default applies only to a state whose country key is absent, which cannot
happen after the wrapper's merge. -/
theorem C8_country_default_amended (o : Oracles) (s : PlannerState)
    (h : o.sys_fault = none) (hc : s.country = none) :
    (run_travel_planner o s).country = some "" ∧
    (∀ (vt : Rat) (t : PlannerState), t.country = none →
      (validate_input vt t).country = some "Unknown") := by
  constructor
  · have hr : run_travel_planner o s = pipeline o (merge_over_defaults s) := by
      unfold run_travel_planner
      rw [h]
    rw [hr]
    unfold pipeline
    rw [create_country, gather_country]
    have hm : (merge_over_defaults s).country = some "" := by
      unfold merge_over_defaults py_dict_merge default_state
      rw [hc]
      rfl
    simp [validate_input, hm]
  · intro vt t ht
    simp [validate_input, ht]

theorem C8_country_default_amended_witness :
    (run_travel_planner oracles_plain state_no_country).country = some "" ∧
    (validate_input 0 state_no_country).country = some "Unknown" :=
  ⟨(C8_country_default_amended oracles_plain state_no_country rfl rfl).1,
   (C8_country_default_amended oracles_plain state_no_country rfl rfl).2
     0 state_no_country rfl⟩

/-- Claim C9 counterexample: on the wrapper's error path the returned state
is the caller's original dict plus `itinerary` and `error_log`; with an
empty caller dict, the `city` and `duration` keys are absent from the
returned state, so not every key of the data model is present. -/
theorem C9_all_keys_cex :
    (run_travel_planner oracles_fault state_empty).city = none ∧
    (run_travel_planner oracles_fault state_empty).duration = none :=
  ⟨rfl, rfl⟩

/-- Claim C9 (amended): on the fault-free path the entry point returns a
state in which every key of the data model is present; on the wrapper's
error path only `itinerary` and `error_log` are guaranteed present — the
other keys are present only if the caller supplied them (the error state is
built from the caller's original, unmerged dict). -/
theorem C9_all_keys_amended (o : Oracles) (s : PlannerState) :
    (o.sys_fault = none → all_keys_present (run_travel_planner o s)) ∧
    (∀ e, o.sys_fault = some e →
      (run_travel_planner o s).itinerary.isSome = true ∧
      (run_travel_planner o s).error_log.isSome = true ∧
      (all_keys_present s → all_keys_present (run_travel_planner o s))) := by
  constructor
  · intro h
    have hr : run_travel_planner o s = pipeline o (merge_over_defaults s) := by
      unfold run_travel_planner
      rw [h]
    rw [hr]
    unfold pipeline
    exact all_keys_present_create _ _
      (all_keys_present_gather _ _ _
        (all_keys_present_validate _ (all_keys_present_merge s)))
  · intro e he
    have hr : run_travel_planner o s =
        { s with itinerary := some ("System error: " ++ e),
                 error_log := some ["System error: " ++ e] } := by
      unfold run_travel_planner
      rw [he]
    rw [hr]
    refine ⟨rfl, rfl, ?_⟩
    intro hs
    obtain ⟨h1, h2, h3, h4, h5, h6, h7, h8, h9, h10, h11, h12, h13, h14⟩ := hs
    exact ⟨h1, h2, h3, h4, rfl, h6, h7, h8, h9, h10, h11, h12, rfl, h14⟩

/-- A fully populated caller state. -/
def state_full : PlannerState :=
  { messages := some [], city := some "Oslo", country := some "Norway",
    interests := some ["nature"], itinerary := some "", duration := some 1,
    trip_type := some TripType.leisure,
    budget_range := some BudgetRange.moderate, preferences := some [],
    weather_info := some [], local_events := some [], estimated_cost := some 0,
    error_log := some [], performance_metrics := some [] }

theorem C9_all_keys_amended_witness :
    all_keys_present (run_travel_planner oracles_plain state_empty) ∧
    ((run_travel_planner oracles_fault state_full).itinerary.isSome = true ∧
     (run_travel_planner oracles_fault state_full).error_log.isSome = true ∧
     all_keys_present (run_travel_planner oracles_fault state_full)) :=
  ⟨(C9_all_keys_amended oracles_plain state_empty).1 rfl,
   ((C9_all_keys_amended oracles_fault state_full).2 "boom" rfl).1,
   ((C9_all_keys_amended oracles_fault state_full).2 "boom" rfl).2.1,
   ((C9_all_keys_amended oracles_fault state_full).2 "boom" rfl).2.2
     ⟨rfl, rfl, rfl, rfl, rfl, rfl, rfl, rfl, rfl, rfl, rfl, rfl, rfl, rfl⟩⟩

/-- Claim C10: on a successful generation `create_enhanced_itinerary`
changes only `itinerary`, `estimated_cost`, `messages` and
`performance_metrics` and leaves `error_log` (and every other field)
unchanged — so violation strings recorded by validation remain in the
final state even when an itinerary is produced. -/
theorem C10_create_success_frame (ct : Rat) (llm : Except String String)
    (content : String) (s : PlannerState) (hok : llm = Except.ok content)
    (hne : content ≠ "") (hc : s.city ≠ none) (hn : s.country ≠ none)
    (hi : s.interests ≠ none) (hd : s.duration ≠ none) :
    (create_enhanced_itinerary ct llm s).error_log = s.error_log ∧
    (create_enhanced_itinerary ct llm s).city = s.city ∧
    (create_enhanced_itinerary ct llm s).country = s.country ∧
    (create_enhanced_itinerary ct llm s).interests = s.interests ∧
    (create_enhanced_itinerary ct llm s).duration = s.duration ∧
    (create_enhanced_itinerary ct llm s).trip_type = s.trip_type ∧
    (create_enhanced_itinerary ct llm s).budget_range = s.budget_range ∧
    (create_enhanced_itinerary ct llm s).preferences = s.preferences ∧
    (create_enhanced_itinerary ct llm s).weather_info = s.weather_info ∧
    (create_enhanced_itinerary ct llm s).local_events = s.local_events ∧
    (create_enhanced_itinerary ct llm s).itinerary = some content ∧
    (create_enhanced_itinerary ct llm s).estimated_cost
      = some (calculate_estimated_cost s) ∧
    (create_enhanced_itinerary ct llm s).messages
      = some ((s.messages.getD []) ++ [Message.ai content]) ∧
    (create_enhanced_itinerary ct llm s).performance_metrics
      = some (dict_insert "total_processing_time"
          (metrics_sum (s.performance_metrics.getD []) + ct)
          (dict_insert "itinerary_generation_time" ct
            (s.performance_metrics.getD []))) := by
  subst hok
  have hk := create_missing_key_eq_none hc hn hi hd
  simp only [create_enhanced_itinerary, hk]
  rw [if_neg hne]
  exact ⟨rfl, rfl, rfl, rfl, rfl, rfl, rfl, rfl, rfl, rfl, rfl, rfl, rfl, rfl⟩

/-- A state reaching generation with a recorded validation violation. -/
def state_c10 : PlannerState :=
  { city := some "Paris", country := some "France", interests := some ["food"],
    duration := some 3, error_log := some ["City is required"] }

theorem C10_create_success_frame_witness :
    (create_enhanced_itinerary 0 (Except.ok "PLAN") state_c10).error_log
      = state_c10.error_log ∧
    (create_enhanced_itinerary 0 (Except.ok "PLAN") state_c10).city = state_c10.city ∧
    (create_enhanced_itinerary 0 (Except.ok "PLAN") state_c10).country
      = state_c10.country ∧
    (create_enhanced_itinerary 0 (Except.ok "PLAN") state_c10).interests
      = state_c10.interests ∧
    (create_enhanced_itinerary 0 (Except.ok "PLAN") state_c10).duration
      = state_c10.duration ∧
    (create_enhanced_itinerary 0 (Except.ok "PLAN") state_c10).trip_type
      = state_c10.trip_type ∧
    (create_enhanced_itinerary 0 (Except.ok "PLAN") state_c10).budget_range
      = state_c10.budget_range ∧
    (create_enhanced_itinerary 0 (Except.ok "PLAN") state_c10).preferences
      = state_c10.preferences ∧
    (create_enhanced_itinerary 0 (Except.ok "PLAN") state_c10).weather_info
      = state_c10.weather_info ∧
    (create_enhanced_itinerary 0 (Except.ok "PLAN") state_c10).local_events
      = state_c10.local_events ∧
    (create_enhanced_itinerary 0 (Except.ok "PLAN") state_c10).itinerary
      = some "PLAN" ∧
    (create_enhanced_itinerary 0 (Except.ok "PLAN") state_c10).estimated_cost
      = some (calculate_estimated_cost state_c10) ∧
    (create_enhanced_itinerary 0 (Except.ok "PLAN") state_c10).messages
      = some ((state_c10.messages.getD []) ++ [Message.ai "PLAN"]) ∧
    (create_enhanced_itinerary 0 (Except.ok "PLAN") state_c10).performance_metrics
      = some (dict_insert "total_processing_time"
          (metrics_sum (state_c10.performance_metrics.getD []) + 0)
          (dict_insert "itinerary_generation_time" 0
            (state_c10.performance_metrics.getD []))) :=
  C10_create_success_frame 0 (Except.ok "PLAN") "PLAN" state_c10 rfl
    (by decide) (by decide) (by decide) (by decide) (by decide)
